import Mathlib

/-!
Shallow embedding of the roomahapp authentication/onboarding core:
the manual cookie-propagation login route (src/unnamed/part_001), the
plain login route (src/app/api/auth/login/route.ts), the OAuth callback
handler (src/unnamed/part_000), and the onboarding completion action
invoked from src/features/auth/components/onboarding-summary.tsx.

External collaborators (the identity provider, the profile store, the
cookie store) are passed in as oracle inputs describing what the awaited
call would return; side effects (sign-out, profile insert, provider
calls, Set-Cookie operations) are recorded explicitly in the result.
-/

namespace RoomahApp

/-- A cookie as it sits in the request cookie store. Attribute fields are
optional: the provider may or may not have supplied them. -/
structure Cookie where
  name : String
  value : String
  path : Option String := none
  secure : Option Bool := none
  httpOnly : Option Bool := none
  sameSite : Option String := none
  maxAge : Option Nat := none
deriving Repr, DecidableEq

/-- One `response.cookies.set(name, value, options)` call: every attribute
is explicit, exactly as the options object in part_001 lines 107-114. -/
structure SetCookieOp where
  name : String
  value : String
  path : String
  secure : Bool
  httpOnly : Bool
  sameSite : String
  maxAge : Nat
deriving Repr, DecidableEq

/-- JavaScript `name.startsWith(p)`, expressed on the character list so
that it evaluates by kernel reduction. -/
def strStartsWith (s p : String) : Bool :=
  p.data.isPrefixOf s.data

/-- part_001 lines 69-123: filter the request cookie store to names
starting with "sb-" and re-set each one on the response with
path "/", secure = isProduction, httpOnly false, sameSite "lax",
maxAge 34560000 (the hardcoded options object). -/
def propagateSessionCookies (store : List Cookie) (isProduction : Bool) :
    List SetCookieOp :=
  (store.filter (fun c => strStartsWith c.name "sb-")).map (fun c =>
    { name := c.name
      value := c.value
      path := "/"
      secure := isProduction
      httpOnly := false
      sameSite := "lax"
      maxAge := 34560000 })

/-- The `user_metadata` object on the provider user; a missing metadata
object is the same as both fields missing. -/
structure UserMeta where
  full_name : Option String := none
  name : Option String := none
deriving Repr, DecidableEq

/-- The authenticated user returned by the identity provider. -/
structure AuthUser where
  id : String
  email : String
  user_metadata : UserMeta := {}
deriving Repr, DecidableEq

/-- JavaScript `a || b` on an optional string: `a` wins unless it is
absent or the empty string (both falsy). -/
def jsStrOr (a : Option String) (b : String) : String :=
  match a with
  | some s => if s = "" then b else s
  | none => b

/-- part_000 line 139: `user.user_metadata?.full_name ||
user.user_metadata?.name || "User"`. -/
def defaultFullName (m : UserMeta) : String :=
  jsStrOr m.full_name (jsStrOr m.name "User")

/-- The projection of a profiles row selected by the OAuth callback
(part_000 line 67: user_id, full_name, registered_at, is_admin). -/
structure Profile where
  user_id : String
  full_name : String
  registered_at : Option String := none
  is_admin : Bool := false
deriving Repr, DecidableEq

/-- The row handed to `adminClient.from("profiles").insert(...)` in
part_000 lines 136-143. -/
structure ProfileInsert where
  user_id : String
  email : String
  full_name : String
  registered_at : Option String
  created_at : String
  updated_at : String
deriving Repr, DecidableEq

/-- Result of `supabase.auth.exchangeCodeForSession`: an error, or data
whose `user` field may still be null. -/
inductive ExchangeResult where
  | failure (message : String)
  | ok (user : Option AuthUser)
deriving Repr, DecidableEq

/-- Redirect targets the callback can produce; each constructor is one
`NextResponse.redirect(...)` call site in part_000 (origin prefix and
URI-encoding of the message elided, the error code and message text
kept verbatim). -/
inductive Redirect where
  | loginError (error message : String)
  | registerError (error message : String)
  | cariJodoh
  | onboardingVerifikasi
  | loginPlain
deriving Repr, DecidableEq

/-- Observable side effects of the callback handler. -/
inductive CallbackEffect where
  | signOut
  | insertProfile (row : ProfileInsert)
deriving Repr, DecidableEq

/-- What the OAuth callback handler produced: the redirect and the side
effects performed, in order. -/
structure CallbackResult where
  redirect : Redirect
  effects : List CallbackEffect
deriving Repr, DecidableEq

def oauthFailedMsg : String := "OAuth callback tidak valid"

def exchangeFailedMsg : String := "Gagal memproses login Google"

def noUserMsg : String := "User tidak ditemukan"

def adminBlockedMsg : String :=
  "Admin hanya dapat login menggunakan email dan password. Google OAuth tidak diizinkan untuk admin."

def accountNotFoundMsg : String :=
  "Akun Google Anda belum terdaftar. Silakan lakukan registrasi terlebih dahulu."

def profileCreationFailedMsg : String := "Gagal membuat profil. Silakan coba lagi."

/-- part_000 GET: the OAuth callback handler. Oracle inputs: `code` and
`flow` are the query parameters; `exchange` is what
exchangeCodeForSession would return; `profile` is what the profiles
lookup by user id would return (a lookup error surfaces as a null row,
which the code never distinguishes); `insertFails` is whether the
profiles insert would fail; `now` is `new Date().toISOString()`.
The final fallback redirect to /login is unreachable because the two
flow branches cover both values of isRegisterFlow. -/
def authCallbackGET (code : Option String) (flow : Option String)
    (exchange : ExchangeResult) (profile : Option Profile)
    (insertFails : Bool) (now : String) : CallbackResult :=
  match code with
  | none => ⟨.loginError "oauth_failed" oauthFailedMsg, []⟩
  | some _ =>
    match exchange with
    | .failure _ => ⟨.loginError "oauth_exchange_failed" exchangeFailedMsg, []⟩
    | .ok none => ⟨.loginError "no_user" noUserMsg, []⟩
    | .ok (some user) =>
      if (flow = some "register" : Bool) = false then
        -- LOGIN FLOW: `profile?.is_admin` is truthy only when a row
        -- exists and its is_admin field is true.
        if (profile.map Profile.is_admin).getD false then
          ⟨.loginError "admin_oauth_blocked" adminBlockedMsg, [.signOut]⟩
        else
          match profile with
          | none => ⟨.loginError "account_not_found" accountNotFoundMsg, [.signOut]⟩
          | some _ => ⟨.cariJodoh, []⟩
      else
        -- REGISTER FLOW
        match profile with
        | some p =>
          if p.registered_at.isSome then ⟨.cariJodoh, []⟩
          else ⟨.onboardingVerifikasi, []⟩
        | none =>
          let row : ProfileInsert :=
            { user_id := user.id
              email := user.email
              full_name := defaultFullName user.user_metadata
              registered_at := none
              created_at := now
              updated_at := now }
          if insertFails then
            ⟨.registerError "profile_creation_failed" profileCreationFailedMsg, [.signOut]⟩
          else
            ⟨.onboardingVerifikasi, [.insertProfile row]⟩

/-- The destructured JSON body of the login request; either field may be
absent from the JSON object. -/
structure LoginRequest where
  email : Option String := none
  password : Option String := none
deriving Repr, DecidableEq

/-- JavaScript truthiness of `!email`: absent and empty string are falsy. -/
def jsTruthyStr : Option String → Bool
  | none => false
  | some s => s ≠ ""

/-- The session object inside signInWithPassword data. -/
structure Session where
  access_token : String
  refresh_token : String
deriving Repr, DecidableEq

/-- The `data` object of signInWithPassword. -/
structure SignInData where
  user : Option AuthUser
  session : Option Session
deriving Repr, DecidableEq

/-- What `supabase.auth.signInWithPassword` would return. -/
inductive SignInResult where
  | failure (message : String)
  | ok (data : SignInData)
deriving Repr, DecidableEq

/-- The JSON body of the login response: exactly one of the two shapes
the route builds (`{success:true, user:{id,email}}` or
`{success:false, error}`). -/
inductive LoginBody where
  | success (id : String) (email : String)
  | failure (error : String)
deriving Repr, DecidableEq

/-- Every string literal appearing in the serialized response body. -/
def LoginBody.strings : LoginBody → List String
  | .success id email => [id, email]
  | .failure e => [e]

/-- Calls the login handler makes to external collaborators. -/
inductive LoginEffect where
  | signInWithPassword (email password : String)
  | profileQuery (userId : String)
deriving Repr, DecidableEq

def invalidInputMsg : String := "Email dan password harus diisi"

def noSessionMsg : String := "Gagal membuat session"

def serverErrorMsg : String := "Terjadi kesalahan server"

/-- What the login POST handler produced: HTTP status, JSON body, the
Set-Cookie operations added to the response, and the external calls
made, in order. -/
structure LoginOutcome where
  status : Nat
  body : LoginBody
  setCookies : List SetCookieOp
  effects : List LoginEffect
deriving Repr, DecidableEq

/-- part_001 POST: the manual cookie-propagation login handler.
`parsed` is `await request.json()` (none when the body is not valid
JSON, in which case the thrown error lands in the catch-all and the
handler returns the generic 500). `signIn` is what signInWithPassword
would return; `store` is the request cookie store after sign-in
(`cookies().getAll()`); `isProduction` is the NODE_ENV check. The
profiles is_admin lookup feeds only console.log, so its result does
not appear as an input. A null `data.user` after a session exists
would throw a TypeError on `data.user.id`, landing in the catch-all
as the generic 500. -/
def loginPOST (parsed : Option LoginRequest) (signIn : SignInResult)
    (store : List Cookie) (isProduction : Bool) : LoginOutcome :=
  match parsed with
  | none => ⟨500, .failure serverErrorMsg, [], []⟩
  | some req =>
    if jsTruthyStr req.email = false ∨ jsTruthyStr req.password = false then
      ⟨400, .failure invalidInputMsg, [], []⟩
    else
      let call := LoginEffect.signInWithPassword (req.email.getD "") (req.password.getD "")
      match signIn with
      | .failure msg => ⟨401, .failure msg, [], [call]⟩
      | .ok data =>
        match data.session with
        | none => ⟨401, .failure noSessionMsg, [], [call]⟩
        | some _ =>
          match data.user with
          | none => ⟨500, .failure serverErrorMsg, [], [call]⟩
          | some u =>
            ⟨200, .success u.id u.email,
              propagateSessionCookies store isProduction,
              [call, .profileQuery u.id]⟩

/-- Result of the onboarding completion action, `{success, error?}`. -/
structure CompleteResult where
  success : Bool
  error : Option String := none
deriving Repr, DecidableEq

/-- Modelled from the spec: `completeOnboarding` lives in
features/auth/server/actions, which is absent from the repository
snapshot (only its caller onboarding-summary.tsx is present). Per spec
section 4.4 it transitions a Profile from incomplete to complete by
setting registered_at to the current time, guarded so a second call is
a no-op success rather than a re-stamp or an error. -/
def completeOnboarding (p : Profile) (now : String) : Profile × CompleteResult :=
  match p.registered_at with
  | none => ({ p with registered_at := some now }, { success := true })
  | some _ => (p, { success := true })

/-- C1: every cookie the manual cookie-propagation login handler re-sets
on the outgoing response (every "sb-" cookie of the request store)
carries path "/", sameSite "lax", and secure exactly when the
environment is production, regardless of the attribute values the
provider originally supplied on the input cookie. -/
theorem propagated_cookie_attrs (store : List Cookie) (isProduction : Bool)
    (op : SetCookieOp) (hop : op ∈ propagateSessionCookies store isProduction) :
    op.path = "/" ∧ op.sameSite = "lax" ∧ op.secure = isProduction := by
  simp only [propagateSessionCookies] at hop
  rcases List.mem_map.mp hop with ⟨c, -, rfl⟩
  exact ⟨rfl, rfl, rfl⟩

/-- C1 witness: the claim instantiated on a concrete one-cookie store in
production. -/
theorem propagated_cookie_attrs_witness :
    ({ name := "sb-a", value := "v", path := "/", secure := true, httpOnly := false,
        sameSite := "lax", maxAge := 34560000 } : SetCookieOp).path = "/" ∧
    ({ name := "sb-a", value := "v", path := "/", secure := true, httpOnly := false,
        sameSite := "lax", maxAge := 34560000 } : SetCookieOp).sameSite = "lax" ∧
    ({ name := "sb-a", value := "v", path := "/", secure := true, httpOnly := false,
        sameSite := "lax", maxAge := 34560000 } : SetCookieOp).secure = true :=
  propagated_cookie_attrs [{ name := "sb-a", value := "v" }] true
    { name := "sb-a", value := "v", path := "/", secure := true, httpOnly := false,
      sameSite := "lax", maxAge := 34560000 } (by decide)

/-- C2 counterexample: a provider cookie that arrives with httpOnly true
and maxAge 100 is re-set with httpOnly false and maxAge 34560000, so the
output attributes are not the values the provider originally set. -/
theorem cookie_httpOnly_maxAge_counterexample :
    (propagateSessionCookies
        [{ name := "sb-x", value := "v", httpOnly := some true, maxAge := some 100 }]
        false).map (fun o => (o.httpOnly, o.maxAge)) = [(false, 34560000)] ∧
    (propagateSessionCookies
        [{ name := "sb-x", value := "v", httpOnly := some true, maxAge := some 100 }]
        false).map (fun o => (o.httpOnly, o.maxAge)) ≠ [(true, 100)] := by
  decide

/-- C2 (amended): every cookie the handler re-sets carries httpOnly false
and maxAge 34560000 (400 days), fixed constants independent of whatever
the provider originally set. -/
theorem propagated_cookie_httpOnly_maxAge (store : List Cookie) (isProduction : Bool)
    (op : SetCookieOp) (hop : op ∈ propagateSessionCookies store isProduction) :
    op.httpOnly = false ∧ op.maxAge = 34560000 := by
  simp only [propagateSessionCookies] at hop
  rcases List.mem_map.mp hop with ⟨c, -, rfl⟩
  exact ⟨rfl, rfl⟩

/-- C2 witness: the amended claim instantiated on a concrete store. -/
theorem propagated_cookie_httpOnly_maxAge_witness :
    ({ name := "sb-a", value := "v", path := "/", secure := false, httpOnly := false,
        sameSite := "lax", maxAge := 34560000 } : SetCookieOp).httpOnly = false ∧
    ({ name := "sb-a", value := "v", path := "/", secure := false, httpOnly := false,
        sameSite := "lax", maxAge := 34560000 } : SetCookieOp).maxAge = 34560000 :=
  propagated_cookie_httpOnly_maxAge [{ name := "sb-a", value := "v", httpOnly := some true }]
    false
    { name := "sb-a", value := "v", path := "/", secure := false, httpOnly := false,
      sameSite := "lax", maxAge := 34560000 } (by decide)

/-- C10: the handler adds Set-Cookie operations only for names starting
with "sb-": every produced operation's name has that prefix, and for any
store cookie whose name lacks the prefix no operation with that name is
produced (the store itself is never mutated by the adapter, which only
reads it). -/
theorem propagate_frame (store : List Cookie) (isProduction : Bool) :
    (∀ op ∈ propagateSessionCookies store isProduction,
      strStartsWith op.name "sb-" = true) ∧
    (∀ c ∈ store, strStartsWith c.name "sb-" = false →
      ∀ op ∈ propagateSessionCookies store isProduction, op.name ≠ c.name) := by
  constructor
  · intro op hop
    simp only [propagateSessionCookies] at hop
    rcases List.mem_map.mp hop with ⟨d, hd, rfl⟩
    exact (List.mem_filter.mp hd).2
  · intro c _ hcs op hop heq
    simp only [propagateSessionCookies] at hop
    rcases List.mem_map.mp hop with ⟨d, hd, rfl⟩
    have hpref : strStartsWith d.name "sb-" = true := (List.mem_filter.mp hd).2
    have heq2 : d.name = c.name := heq
    rw [heq2] at hpref
    rw [hpref] at hcs
    exact absurd hcs (by simp)

/-- C10 witness: on a concrete store holding a "theme" cookie and an
"sb-a" cookie, the produced operation is not named "theme". -/
theorem propagate_frame_witness :
    ({ name := "sb-a", value := "v", path := "/", secure := true, httpOnly := false,
        sameSite := "lax", maxAge := 34560000 } : SetCookieOp).name ≠ "theme" :=
  (propagate_frame [{ name := "theme", value := "dark" }, { name := "sb-a", value := "v" }]
      true).2
    { name := "theme", value := "dark" } (by decide) (by decide)
    { name := "sb-a", value := "v", path := "/", secure := true, httpOnly := false,
      sameSite := "lax", maxAge := 34560000 } (by decide)

/-- C3: on an OAuth callback with flow=login where the code exchange
succeeds with a user and the looked-up profile exists with
is_admin = true, the handler signs the session out and redirects to the
login page with error=admin_oauth_blocked. -/
theorem callback_login_admin_blocked (c : String) (u : AuthUser) (p : Profile)
    (insertFails : Bool) (now : String) (hadmin : p.is_admin = true) :
    (authCallbackGET (some c) (some "login") (.ok (some u)) (some p)
        insertFails now).redirect
      = .loginError "admin_oauth_blocked" adminBlockedMsg ∧
    CallbackEffect.signOut ∈
      (authCallbackGET (some c) (some "login") (.ok (some u)) (some p)
        insertFails now).effects := by
  simp [authCallbackGET, hadmin]

/-- C3 witness: a concrete admin profile on the login flow. -/
theorem callback_login_admin_blocked_witness :
    (authCallbackGET (some "c") (some "login") (.ok (some ⟨"u1", "u@x", {}⟩))
        (some ⟨"u1", "Admin", none, true⟩) false "t").redirect
      = .loginError "admin_oauth_blocked" adminBlockedMsg ∧
    CallbackEffect.signOut ∈
      (authCallbackGET (some "c") (some "login") (.ok (some ⟨"u1", "u@x", {}⟩))
        (some ⟨"u1", "Admin", none, true⟩) false "t").effects :=
  callback_login_admin_blocked "c" ⟨"u1", "u@x", {}⟩ ⟨"u1", "Admin", none, true⟩
    false "t" rfl

/-- C4 counterexample: when no profile row exists, the login flow yields
account_not_found, never admin_oauth_blocked — admin status is only
readable from the profile row, so a user with no row is not rejected as
an admin even if they are one externally. -/
theorem callback_no_profile_counterexample :
    (authCallbackGET (some "c") (some "login")
        (.ok (some ⟨"u1", "u@x", {}⟩)) none false "t").redirect
      = .loginError "account_not_found" accountNotFoundMsg ∧
    (authCallbackGET (some "c") (some "login")
        (.ok (some ⟨"u1", "u@x", {}⟩)) none false "t").redirect
      ≠ .loginError "admin_oauth_blocked" adminBlockedMsg := by
  decide

/-- C4 (amended): the admin-OAuth-block check precedes the profile-absent
check, so whenever the looked-up profile exists with is_admin = true the
login flow is rejected with admin_oauth_blocked; when no profile row
exists the handler cannot see admin status and rejects with
account_not_found. -/
theorem callback_admin_check_precedence (c : String) (u : AuthUser)
    (profile : Option Profile) (insertFails : Bool) (now : String) :
    (∀ p, profile = some p → p.is_admin = true →
      (authCallbackGET (some c) (some "login") (.ok (some u)) profile
          insertFails now).redirect
        = .loginError "admin_oauth_blocked" adminBlockedMsg) ∧
    (profile = none →
      (authCallbackGET (some c) (some "login") (.ok (some u)) profile
          insertFails now).redirect
        = .loginError "account_not_found" accountNotFoundMsg) := by
  constructor
  · rintro p rfl hadmin
    simp [authCallbackGET, hadmin]
  · rintro rfl
    simp [authCallbackGET]

/-- C4 amended-claim witness: both branches instantiated concretely. -/
theorem callback_admin_check_precedence_witness :
    (authCallbackGET (some "c") (some "login") (.ok (some ⟨"u1", "u@x", {}⟩))
        (some ⟨"u1", "Admin", none, true⟩) false "t").redirect
      = .loginError "admin_oauth_blocked" adminBlockedMsg ∧
    (authCallbackGET (some "c") (some "login") (.ok (some ⟨"u1", "u@x", {}⟩))
        none false "t").redirect
      = .loginError "account_not_found" accountNotFoundMsg :=
  ⟨(callback_admin_check_precedence "c" ⟨"u1", "u@x", {}⟩
      (some ⟨"u1", "Admin", none, true⟩) false "t").1 ⟨"u1", "Admin", none, true⟩ rfl rfl,
   (callback_admin_check_precedence "c" ⟨"u1", "u@x", {}⟩ none false "t").2 rfl⟩

/-- C5: on the register flow with a successful exchange and no existing
profile, exactly one Profile row is inserted, with registered_at null
and full_name defaulted from metadata full_name, else name, else
"User", and the redirect is the onboarding verification step; on insert
failure the handler signs out and redirects to the register page with
error=profile_creation_failed; a repeat callback that now finds the
profile (registered_at still null) performs no insert and redirects to
the verification step. -/
theorem callback_register_new_profile (c : String) (u : AuthUser) (now : String) :
    (authCallbackGET (some c) (some "register") (.ok (some u)) none false now).effects
      = [.insertProfile ⟨u.id, u.email, defaultFullName u.user_metadata, none, now, now⟩] ∧
    (authCallbackGET (some c) (some "register") (.ok (some u)) none false now).redirect
      = .onboardingVerifikasi ∧
    (authCallbackGET (some c) (some "register") (.ok (some u)) none true now).redirect
      = .registerError "profile_creation_failed" profileCreationFailedMsg ∧
    (authCallbackGET (some c) (some "register") (.ok (some u)) none true now).effects
      = [.signOut] ∧
    (∀ p : Profile, p.registered_at = none →
      (authCallbackGET (some c) (some "register") (.ok (some u)) (some p) false now).effects
        = [] ∧
      (authCallbackGET (some c) (some "register") (.ok (some u)) (some p) false now).redirect
        = .onboardingVerifikasi) ∧
    (∀ fn, u.user_metadata.full_name = some fn → fn ≠ "" →
      defaultFullName u.user_metadata = fn) ∧
    ((u.user_metadata.full_name = none ∨ u.user_metadata.full_name = some "") →
      ∀ nm, u.user_metadata.name = some nm → nm ≠ "" →
        defaultFullName u.user_metadata = nm) ∧
    ((u.user_metadata.full_name = none ∨ u.user_metadata.full_name = some "") →
      (u.user_metadata.name = none ∨ u.user_metadata.name = some "") →
      defaultFullName u.user_metadata = "User") := by
  refine ⟨?_, ?_, ?_, ?_, ?_, ?_, ?_, ?_⟩
  · simp [authCallbackGET]
  · simp [authCallbackGET]
  · simp [authCallbackGET]
  · simp [authCallbackGET]
  · intro p hp
    constructor
    · simp [authCallbackGET, hp]
    · simp [authCallbackGET, hp]
  · intro fn hfn hne
    simp [defaultFullName, jsStrOr, hfn, hne]
  · rintro (h | h) nm hnm hne
    · simp [defaultFullName, jsStrOr, h, hnm, hne]
    · simp [defaultFullName, jsStrOr, h, hnm, hne]
  · rintro (h | h) (h2 | h2)
    · simp [defaultFullName, jsStrOr, h, h2]
    · simp [defaultFullName, jsStrOr, h, h2]
    · simp [defaultFullName, jsStrOr, h, h2]
    · simp [defaultFullName, jsStrOr, h, h2]

/-- C5 witness: concrete register-flow scenarios — the inserted row, the
no-insert retry, and the metadata full_name default. -/
theorem callback_register_new_profile_witness :
    (authCallbackGET (some "c") (some "register")
        (.ok (some ⟨"u1", "u@x", ⟨some "Alice", none⟩⟩)) none false "2026-01-01").effects
      = [.insertProfile ⟨"u1", "u@x", defaultFullName ⟨some "Alice", none⟩, none,
          "2026-01-01", "2026-01-01"⟩] ∧
    (authCallbackGET (some "c") (some "register")
        (.ok (some ⟨"u1", "u@x", ⟨some "Alice", none⟩⟩))
        (some ⟨"u1", "Alice", none, false⟩) false "2026-01-01").effects = [] ∧
    defaultFullName ⟨some "Alice", none⟩ = "Alice" := by
  have h := callback_register_new_profile "c" ⟨"u1", "u@x", ⟨some "Alice", none⟩⟩
    "2026-01-01"
  exact ⟨h.1, (h.2.2.2.2.1 ⟨"u1", "Alice", none, false⟩ rfl).1,
    h.2.2.2.2.2.1 "Alice" rfl (by decide)⟩

/-- C6: a parsed login body with a missing or empty email, or a missing
or empty password, yields HTTP 400 with a failure body, and no call to
the identity provider's password sign-in is made (the effects list is
empty). -/
theorem login_empty_input_rejected (req : LoginRequest) (signIn : SignInResult)
    (store : List Cookie) (isProduction : Bool)
    (h : jsTruthyStr req.email = false ∨ jsTruthyStr req.password = false) :
    (loginPOST (some req) signIn store isProduction).status = 400 ∧
    (loginPOST (some req) signIn store isProduction).body
      = .failure invalidInputMsg ∧
    (loginPOST (some req) signIn store isProduction).effects = [] := by
  have hl : loginPOST (some req) signIn store isProduction
      = ⟨400, .failure invalidInputMsg, [], []⟩ := by
    simp only [loginPOST]
    rw [if_pos h]
  rw [hl]
  exact ⟨rfl, rfl, rfl⟩

/-- C6 witness: an empty email with a present password. -/
theorem login_empty_input_rejected_witness :
    (loginPOST (some ⟨some "", some "pw"⟩) (.failure "boom") [] true).status = 400 ∧
    (loginPOST (some ⟨some "", some "pw"⟩) (.failure "boom") [] true).body
      = .failure invalidInputMsg ∧
    (loginPOST (some ⟨some "", some "pw"⟩) (.failure "boom") [] true).effects = [] :=
  login_empty_input_rejected ⟨some "", some "pw"⟩ (.failure "boom") [] true
    (Or.inl (by decide))

/-- C7: when validation passes and the provider sign-in returns a user
and a session, the response is HTTP 200 with body exactly
success (user id) (user email); any string other than those two (in
particular the password and the session's tokens) does not occur in the
body. -/
theorem login_success_response (req : LoginRequest) (u : AuthUser) (s : Session)
    (store : List Cookie) (isProduction : Bool)
    (he : jsTruthyStr req.email = true) (hp : jsTruthyStr req.password = true) :
    (loginPOST (some req) (.ok ⟨some u, some s⟩) store isProduction).status = 200 ∧
    (loginPOST (some req) (.ok ⟨some u, some s⟩) store isProduction).body
      = .success u.id u.email ∧
    (∀ t, t ≠ u.id → t ≠ u.email →
      t ∉ ((loginPOST (some req) (.ok ⟨some u, some s⟩) store isProduction).body).strings) := by
  have hif : ¬ (jsTruthyStr req.email = false ∨ jsTruthyStr req.password = false) := by
    simp [he, hp]
  have hl : loginPOST (some req) (.ok ⟨some u, some s⟩) store isProduction
      = ⟨200, .success u.id u.email, propagateSessionCookies store isProduction,
          [.signInWithPassword (req.email.getD "") (req.password.getD ""),
            .profileQuery u.id]⟩ := by
    simp only [loginPOST]
    rw [if_neg hif]
  rw [hl]
  refine ⟨rfl, rfl, ?_⟩
  intro t ht1 ht2
  simp [LoginBody.strings, ht1, ht2]

/-- C7 witness: a concrete successful login; the access token does not
appear in the response body. -/
theorem login_success_response_witness :
    (loginPOST (some ⟨some "a@b", some "pw"⟩)
        (.ok ⟨some ⟨"u1", "a@b", {}⟩, some ⟨"tok", "ref"⟩⟩) [] true).status = 200 ∧
    (loginPOST (some ⟨some "a@b", some "pw"⟩)
        (.ok ⟨some ⟨"u1", "a@b", {}⟩, some ⟨"tok", "ref"⟩⟩) [] true).body
      = .success "u1" "a@b" ∧
    "tok" ∉ ((loginPOST (some ⟨some "a@b", some "pw"⟩)
        (.ok ⟨some ⟨"u1", "a@b", {}⟩, some ⟨"tok", "ref"⟩⟩) [] true).body).strings := by
  have h := login_success_response ⟨some "a@b", some "pw"⟩ ⟨"u1", "a@b", {}⟩
    ⟨"tok", "ref"⟩ [] true (by decide) (by decide)
  exact ⟨h.1, h.2.1, h.2.2 "tok" (by decide) (by decide)⟩

/-- C9: a POST body that is not valid JSON makes request.json() throw
inside the catch-all try block before any field validation, so the
handler returns the generic HTTP 500 server-error body, not the 400
invalid-input response. -/
theorem login_invalid_json_500 (signIn : SignInResult) (store : List Cookie)
    (isProduction : Bool) :
    (loginPOST none signIn store isProduction).status = 500 ∧
    (loginPOST none signIn store isProduction).body = .failure serverErrorMsg ∧
    (loginPOST none signIn store isProduction).status ≠ 400 := by
  exact ⟨rfl, rfl, by simp [loginPOST]⟩

/-- C8: completeOnboarding is idempotent after the first success — on a
profile with registered_at null, the first call stamps registered_at
with the given time and succeeds, and a second call (at a possibly
different time) succeeds without changing the profile, keeping the
first timestamp. -/
theorem completeOnboarding_idempotent (p : Profile) (t1 t2 : String)
    (h : p.registered_at = none) :
    (completeOnboarding p t1).2.success = true ∧
    (completeOnboarding p t1).1.registered_at = some t1 ∧
    (completeOnboarding (completeOnboarding p t1).1 t2).2.success = true ∧
    (completeOnboarding (completeOnboarding p t1).1 t2).1 = (completeOnboarding p t1).1 ∧
    (completeOnboarding (completeOnboarding p t1).1 t2).1.registered_at = some t1 := by
  simp [completeOnboarding, h]

/-- C8 witness: a concrete unregistered profile completed twice. -/
theorem completeOnboarding_idempotent_witness :
    (completeOnboarding ⟨"u1", "Alice", none, false⟩ "t1").2.success = true ∧
    (completeOnboarding ⟨"u1", "Alice", none, false⟩ "t1").1.registered_at = some "t1" ∧
    (completeOnboarding (completeOnboarding ⟨"u1", "Alice", none, false⟩ "t1").1
        "t2").2.success = true ∧
    (completeOnboarding (completeOnboarding ⟨"u1", "Alice", none, false⟩ "t1").1
        "t2").1 = (completeOnboarding ⟨"u1", "Alice", none, false⟩ "t1").1 ∧
    (completeOnboarding (completeOnboarding ⟨"u1", "Alice", none, false⟩ "t1").1
        "t2").1.registered_at = some "t1" :=
  completeOnboarding_idempotent ⟨"u1", "Alice", none, false⟩ "t1" "t2" rfl

end RoomahApp
